import Mathlib

/-!
Shallow embedding of the SeExpr expression-pipeline core
(`src/SeExpr/Expression.h`).

The header defines the `Expression` class with its lazily staged state
(parse / prepare flags, cached error and comment lists, usage sets, the
thread-unsafe-call list) and the variable-reference base classes
`ExprVarRef`, `ExprVectorVarRef`, `ExprScalarVarRef`.  Methods whose
bodies appear inline in the header (`isValid`, `parseIfNeeded`,
`prepIfNeeded`, `isThreadSafe`, `setThreadUnsafe`,
`getThreadUnsafeFunctionCalls`, `getErrors`, `getComments`, `addError`,
`addComment`, `addVar`, `addFunc`, the default `eval` overloads of the
two var-ref classes) are translated directly from that code.  Bodies
that live in the (absent) implementation file (`setExpr`, `parse`,
`prep`, `syntaxOK`, `usesVar`, `usesFunc`) and the `ExprType` class
(from the absent `ExprType.h`) are modelled from the specification; each
such definition says so in its doc comment.

Conventions: the mutable fields of the C++ object become a state record
`Expression`; a `const` method that may touch `mutable` fields becomes a
function `Expression → answer × Expression`.  C++ `int` becomes `Int`,
`double` becomes `ℚ` (only copying of values occurs here, no floating
arithmetic), `std::vector` becomes `List`, and `std::set<std::string>`
becomes a duplicate-free `List String` used only through membership.
The external parser and the host's binding callbacks are abstracted as
an oracle (`Host`) supplying, per source text, the parse outcome and the
binding outcome.
-/

namespace SeExpr2

/-- Variability qualifier of a type descriptor.
Modelled from the spec: `variability ∈ \x7bConstant, Varying\x7d`. -/
inductive Variability where
  | Constant : Variability
  | Varying : Variability
deriving DecidableEq, Repr

/-- Dominance on variability: Varying dominates Constant.
Modelled from the spec: "`Varying` dominates `Constant` under
unification (mixing a varying operand with a constant one yields
Varying)". -/
def Variability.dominant : Variability → Variability → Variability
  | .Varying, _ => .Varying
  | _, .Varying => .Varying
  | _, _ => .Constant

/-- Kind of a type descriptor.
Modelled from the spec: `kind ∈ \x7bError, Numeric(dimension), String\x7d`
(the `ExprType` class of `ExprType.h` is not among the supplied
sources). -/
inductive TypeKind where
  | Error : TypeKind
  | Numeric : Nat → TypeKind
  | String : TypeKind
deriving DecidableEq, Repr

/-- A type descriptor: kind plus variability.
Modelled from the spec (§3 "Type Descriptor"). -/
structure TypeDescriptor where
  kind : TypeKind
  variability : Variability
deriving DecidableEq, Repr

/-- Modelled from the spec: the `error()` constructor of a type
descriptor. -/
def TypeDescriptor.error : TypeDescriptor :=
  { kind := .Error, variability := .Varying }

/-- Modelled from the spec: the `numeric(dimension)` constructor, with
an explicit variability (the default-constructed variability is
Varying). -/
def TypeDescriptor.numeric (dimension : Nat) (v : Variability := .Varying) :
    TypeDescriptor :=
  { kind := .Numeric dimension, variability := v }

/-- Modelled from the spec (§4.1): `unify(a, b)` — combining with Error
yields Error; kind mismatch (Numeric vs String, or mismatched dimension
beyond the scalar-broadcast rule) yields Error; otherwise the kind is
preserved and the variability is the dominant (Varying wins) of the
two. -/
def unify (a b : TypeDescriptor) : TypeDescriptor :=
  match a.kind, b.kind with
  | .Error, _ => TypeDescriptor.error
  | _, .Error => TypeDescriptor.error
  | .Numeric m, .Numeric n =>
    if m = n then { kind := .Numeric n, variability := a.variability.dominant b.variability }
    else if m = 1 then { kind := .Numeric n, variability := a.variability.dominant b.variability }
    else if n = 1 then { kind := .Numeric m, variability := a.variability.dominant b.variability }
    else TypeDescriptor.error
  | .String, .String => { kind := .String, variability := a.variability.dominant b.variability }
  | _, _ => TypeDescriptor.error

/-- `Expression::Error` (Expression.h lines 176-190): message text plus
start and end offsets into the expression string. -/
structure Expression.Error where
  error : String
  startPos : Int
  endPos : Int
deriving DecidableEq, Repr

/-- The lazily staged mutable state of the C++ `Expression` object
(Expression.h lines 315-362): expression text, parse-tree presence
flag (`_parseTree` is a pointer in the source, null iff syntax was
bad — modelled as the Bool "non-null"), validity flag, the `_parsed`
and `_prepped` staging flags, cached error and comment lists, usage
sets `_vars` / `_funcs`, and the thread-unsafe-function-call list. -/
structure Expression where
  _expression : String
  _parseTree : Bool
  _isValid : Bool
  _parsed : Bool
  _prepped : Bool
  _errors : List Expression.Error
  _comments : List (Int × Int)
  _vars : List String
  _funcs : List String
  _threadUnsafeFunctionCalls : List String
deriving DecidableEq, Repr

/-- The freshly constructed expression object, before any text is set:
nothing parsed, all cached lists empty.  Modelled from the spec (state
`Empty` of §4.3; the constructor body is not among the supplied
sources). -/
def Expression.mk0 : Expression :=
  { _expression := ""
    _parseTree := false
    _isValid := false
    _parsed := false
    _prepped := false
    _errors := []
    _comments := []
    _vars := []
    _funcs := []
    _threadUnsafeFunctionCalls := [] }

/-- `std::set<std::string>::insert`, modelled on duplicate-free lists:
inserting an element already present changes nothing. -/
def setInsert (n : String) (l : List String) : List String :=
  if n ∈ l then l else l ++ [n]

/-- `Expression::addVar` (Expression.h line 416): `_vars.insert(n)`. -/
def Expression.addVar (n : String) (s : Expression) : Expression :=
  { s with _vars := setInsert n s._vars }

/-- `Expression::addFunc` (Expression.h line 419): `_funcs.insert(n)`. -/
def Expression.addFunc (n : String) (s : Expression) : Expression :=
  { s with _funcs := setInsert n s._funcs }

/-- `Expression::setThreadUnsafe` (Expression.h lines 250-251):
`_threadUnsafeFunctionCalls.push_back(functionName)`. -/
def Expression.setThreadUnsafe (functionName : String) (s : Expression) : Expression :=
  { s with _threadUnsafeFunctionCalls := s._threadUnsafeFunctionCalls ++ [functionName] }

/-- `Expression::isThreadSafe` (Expression.h lines 245-246):
`return _threadUnsafeFunctionCalls.size()==0;`.  A const accessor that
touches no mutable state, so the state component is unchanged. -/
def Expression.isThreadSafe (s : Expression) : Bool × Expression :=
  (s._threadUnsafeFunctionCalls.length == 0, s)

/-- `Expression::getThreadUnsafeFunctionCalls` (Expression.h lines
254-255): returns the list as is, no staging. -/
def Expression.getThreadUnsafeFunctionCalls (s : Expression) :
    List String × Expression :=
  (s._threadUnsafeFunctionCalls, s)

/-- `Expression::getErrors` (Expression.h lines 225-226): `return
_errors;` — no staging is triggered. -/
def Expression.getErrors (s : Expression) : List Expression.Error × Expression :=
  (s._errors, s)

/-- `Expression::getComments` (Expression.h lines 229-230): `return
_comments;` — no staging is triggered. -/
def Expression.getComments (s : Expression) : List (Int × Int) × Expression :=
  (s._comments, s)

/-- `Expression::addError` (Expression.h lines 288-290):
`_errors.push_back(Error(error,startPos,endPos))`. -/
def Expression.addError (error : String) (startPos endPos : Int) (s : Expression) :
    Expression :=
  { s with _errors := s._errors ++ [⟨error, startPos, endPos⟩] }

/-- `Expression::addComment` (Expression.h lines 293-294):
`_comments.push_back(std::pair<int,int>(pos,length+pos-1))`. -/
def Expression.addComment (pos length : Int) (s : Expression) : Expression :=
  { s with _comments := s._comments ++ [(pos, length + pos - 1)] }

/-- Outcome of the external parser on one source text: whether the
grammar accepted the text (the parse tree pointer is non-null exactly
then), the syntax errors recorded, and the comment spans recorded
(comments are recorded regardless of success).  Abstraction of the
black-box parser described in the spec (§1, §4.3). -/
structure ParseResult where
  syntaxValid : Bool
  errors : List Expression.Error
  comments : List (Int × Int)

/-- Outcome of binding (preparing) the parse tree of one source text
against the host's resolution callbacks: overall validity, the bind
errors collected fail-soft, the variable and function names resolved
(in resolution order), and the names of thread-unsafe functions, one
per call site in encounter order.  Abstraction of the resolution
protocol of the spec (§4.2, §4.3). -/
structure BindResult where
  valid : Bool
  errors : List Expression.Error
  vars : List String
  funcs : List String
  threadUnsafeCalls : List String

/-- The environment an `Expression` runs against: the external parser
and the host's binding behaviour, both a function of the source text. -/
structure Host where
  parseText : String → ParseResult
  bindTree : String → BindResult

/-- Modelled from the spec: `Expression::parse` (declared at
Expression.h line 305, body not among the supplied sources).  Runs the
external parser on the expression text, sets `_parsed`, stores the
parse-tree presence, appends any syntax errors, and records comments
regardless of success (§4.3 `Empty → Parsed`). -/
def Expression.parse (H : Host) (s : Expression) : Expression :=
  let r := H.parseText s._expression
  { s with
    _parsed := true
    _parseTree := r.syntaxValid
    _errors := s._errors ++ r.errors
    _comments := s._comments ++ r.comments }

/-- `Expression::parseIfNeeded` (Expression.h line 308):
`if (!_parsed) parse();`. -/
def Expression.parseIfNeeded (H : Host) (s : Expression) : Expression :=
  if s._parsed then s else Expression.parse H s

/-- Modelled from the spec: `Expression::prep` (declared at
Expression.h line 312, body not among the supplied sources).  Ensures
the text is parsed; with no tree the expression is invalid; otherwise
walks the tree invoking the resolution protocol — each resolved name is
recorded through `addVar` / `addFunc`, each thread-unsafe call through
`setThreadUnsafe`, bind errors are appended fail-soft — and sets the
validity flag; in every case `_prepped` is set (§4.3
`Parsed → Prepared`). -/
def Expression.prep (H : Host) (s : Expression) : Expression :=
  let s1 := Expression.parseIfNeeded H s
  if s1._parseTree then
    let b := H.bindTree s1._expression
    let s2 := b.vars.foldl (fun st n => Expression.addVar n st) s1
    let s3 := b.funcs.foldl (fun st n => Expression.addFunc n st) s2
    let s4 := b.threadUnsafeCalls.foldl (fun st n => Expression.setThreadUnsafe n st) s3
    { s4 with
      _prepped := true
      _isValid := b.valid
      _errors := s4._errors ++ b.errors }
  else
    { s1 with _prepped := true, _isValid := false }

/-- `Expression::prepIfNeeded` (Expression.h line 335):
`if (!_prepped) prep();`. -/
def Expression.prepIfNeeded (H : Host) (s : Expression) : Expression :=
  if s._prepped then s else Expression.prep H s

/-- `Expression::isValid` (Expression.h line 217):
`prepIfNeeded(); return _isValid;`. -/
def Expression.isValid (H : Host) (s : Expression) : Bool × Expression :=
  let s1 := Expression.prepIfNeeded H s
  (s1._isValid, s1)

/-- Modelled from the spec: `Expression::setExpr` (declared at
Expression.h lines 201-203, body not among the supplied sources).  "Set
expression string to e.  This invalidates all parsed state."; the spec
(§4.3): `setExpr` unconditionally resets to `Empty` regardless of
current state, discarding cached tree, errors, comments, usage sets,
thread-safety list. -/
def Expression.setExpr (e : String) (_s : Expression) : Expression :=
  { _expression := e
    _parseTree := false
    _isValid := false
    _parsed := false
    _prepped := false
    _errors := []
    _comments := []
    _vars := []
    _funcs := []
    _threadUnsafeFunctionCalls := [] }

/-- Modelled from the spec: `Expression::syntaxOK` (declared at
Expression.h line 211, body not among the supplied sources).  "Check
expression syntax.  Expr will be parsed if needed." — parses lazily and
answers whether the parse produced a tree. -/
def Expression.syntaxOK (H : Host) (s : Expression) : Bool × Expression :=
  let s1 := Expression.parseIfNeeded H s
  (s1._parseTree, s1)

/-- Modelled from the spec: `Expression::usesVar` (declared at
Expression.h line 238, body not among the supplied sources).
"Determine whether expression uses a particular external variable.
Expr will be parsed if needed.  No binding is required." — parses
lazily and answers membership in the used-variables set. -/
def Expression.usesVar (H : Host) (name : String) (s : Expression) :
    Bool × Expression :=
  let s1 := Expression.parseIfNeeded H s
  (s1._vars.contains name, s1)

/-- Modelled from the spec: `Expression::usesFunc` (declared at
Expression.h line 242, body not among the supplied sources).  Same
contract as `usesVar`, over the used-functions set. -/
def Expression.usesFunc (H : Host) (name : String) (s : Expression) :
    Bool × Expression :=
  let s1 := Expression.parseIfNeeded H s
  (s1._funcs.contains name, s1)

/-- `Vec3d` (from the absent `Vec3d.h`): a triple of doubles, used here
only through component access `ret[k]`; components are modelled as ℚ
since only copying occurs. -/
structure Vec3d where
  comp0 : ℚ
  comp1 : ℚ
  comp2 : ℚ
deriving DecidableEq, Repr

/-- `Vec3d::operator[]` on indices 0, 1, 2. -/
def Vec3d.get (v : Vec3d) : Nat → ℚ
  | 0 => v.comp0
  | 1 => v.comp1
  | _ => v.comp2

/-- Outcome of the string-eval capability `eval(const char** result)`
of a variable reference: either a string is written to the
caller-supplied storage, or the body aborts in `assert(false)`. -/
inductive StrEvalOutcome where
  | written : String → StrEvalOutcome
  | assertFailed : StrEvalOutcome
deriving DecidableEq, Repr

/-- `ExprVectorVarRef` (Expression.h lines 92-107): constructed with
`dim` (default 3); the pure virtual `eval(const ExprVarNode*, Vec3d&)`
is supplied by the derived class and is modelled by the `Vec3d` value
it writes. -/
structure ExprVectorVarRef where
  dim : Nat := 3
  evalNode : Vec3d
deriving DecidableEq, Repr

/-- The declared type of an `ExprVectorVarRef` (Expression.h line 96):
`ExprType().FP(dim).Varying()`. -/
def ExprVectorVarRef.type (r : ExprVectorVarRef) : TypeDescriptor :=
  TypeDescriptor.numeric r.dim .Varying

/-- `ExprScalarVarRef` (Expression.h lines 111-127): no dimension
parameter; the node-based eval still produces a `Vec3d`. -/
structure ExprScalarVarRef where
  evalNode : Vec3d
deriving DecidableEq, Repr

/-- The declared type of an `ExprScalarVarRef` (Expression.h line 115):
`ExprType().FP(1).Varying()`. -/
def ExprScalarVarRef.type (_r : ExprScalarVarRef) : TypeDescriptor :=
  TypeDescriptor.numeric 1 .Varying

/-- The copy loop `for(int k=0;k<count;k++) result[k]=ret[k];` of the
numeric-eval adapters, as an update of the caller-supplied buffer. -/
def writeComponents (ret : Vec3d) (count : Nat) (result : Nat → ℚ) : Nat → ℚ :=
  match count with
  | 0 => result
  | k + 1 => fun i => if i = k then Vec3d.get ret k else writeComponents ret k result i

/-- `ExprVectorVarRef::eval(double* result)` (Expression.h lines
101-105): runs the node-based eval into a `Vec3d` and copies components
0..2 into the buffer (`for(int k=0;k<3;k++) result[k]=ret[k];`). -/
def ExprVectorVarRef.evalFP (r : ExprVectorVarRef) (result : Nat → ℚ) : Nat → ℚ :=
  writeComponents r.evalNode 3 result

/-- `ExprScalarVarRef::eval(double* result)` (Expression.h lines
120-124): copies only component 0
(`for(int k=0;k<1;k++) result[k]=ret[k];`). -/
def ExprScalarVarRef.evalFP (r : ExprScalarVarRef) (result : Nat → ℚ) : Nat → ℚ :=
  writeComponents r.evalNode 1 result

/-- `ExprVectorVarRef::eval(const char** result)` (Expression.h line
106): the body is `assert(false);` — no string is ever written. -/
def ExprVectorVarRef.evalStr (_r : ExprVectorVarRef) : StrEvalOutcome :=
  .assertFailed

/-- `ExprScalarVarRef::eval(const char** result)` (Expression.h line
125): the body is `assert(false);` — no string is ever written. -/
def ExprScalarVarRef.evalStr (_r : ExprScalarVarRef) : StrEvalOutcome :=
  .assertFailed

/-! ## Basic staging lemmas -/

theorem Expression.parse_parsed (H : Host) (s : Expression) :
    (Expression.parse H s)._parsed = true := rfl

theorem Expression.parse_prepped (H : Host) (s : Expression) :
    (Expression.parse H s)._prepped = s._prepped := rfl

theorem Expression.parse_vars (H : Host) (s : Expression) :
    (Expression.parse H s)._vars = s._vars := rfl

theorem Expression.parse_funcs (H : Host) (s : Expression) :
    (Expression.parse H s)._funcs = s._funcs := rfl

theorem Expression.parseIfNeeded_parsed (H : Host) (s : Expression) :
    (Expression.parseIfNeeded H s)._parsed = true := by
  unfold Expression.parseIfNeeded
  split
  · assumption
  · rfl

theorem Expression.parseIfNeeded_prepped (H : Host) (s : Expression) :
    (Expression.parseIfNeeded H s)._prepped = s._prepped := by
  unfold Expression.parseIfNeeded
  split <;> rfl

theorem Expression.parseIfNeeded_vars (H : Host) (s : Expression) :
    (Expression.parseIfNeeded H s)._vars = s._vars := by
  unfold Expression.parseIfNeeded
  split <;> rfl

theorem Expression.parseIfNeeded_funcs (H : Host) (s : Expression) :
    (Expression.parseIfNeeded H s)._funcs = s._funcs := by
  unfold Expression.parseIfNeeded
  split <;> rfl

theorem Expression.prep_prepped (H : Host) (s : Expression) :
    (Expression.prep H s)._prepped = true := by
  simp only [Expression.prep]
  split <;> rfl

theorem Expression.prepIfNeeded_prepped (H : Host) (s : Expression) :
    (Expression.prepIfNeeded H s)._prepped = true := by
  unfold Expression.prepIfNeeded
  split
  · assumption
  · exact Expression.prep_prepped H s

theorem Expression.prepIfNeeded_of_prepped (H : Host) (s : Expression)
    (h : s._prepped = true) : Expression.prepIfNeeded H s = s := by
  unfold Expression.prepIfNeeded
  simp [h]

theorem Expression.prepIfNeeded_idem (H : Host) (s : Expression) :
    Expression.prepIfNeeded H (Expression.prepIfNeeded H s)
      = Expression.prepIfNeeded H s :=
  Expression.prepIfNeeded_of_prepped H _ (Expression.prepIfNeeded_prepped H s)

/-! ## The stated lazy-staging claim and a refuting fixture -/

/-- Formalisation of the stated claim that every query — the cached-list
accessors included — lazily triggers the staging it needs, so on a
freshly-set expression none of them answers from stale pre-staging
state: each accessor's answer would then agree with the corresponding
post-staging field. -/
def Expression.queriesNeverStale : Prop :=
  ∀ (H : Host) (t : String) (s : Expression),
    (Expression.getErrors (Expression.setExpr t s)).1
      = (Expression.prepIfNeeded H (Expression.setExpr t s))._errors ∧
    (Expression.getComments (Expression.setExpr t s)).1
      = (Expression.prepIfNeeded H (Expression.setExpr t s))._comments ∧
    (Expression.getThreadUnsafeFunctionCalls (Expression.setExpr t s)).1
      = (Expression.prepIfNeeded H (Expression.setExpr t s))._threadUnsafeFunctionCalls

/-- A concrete host whose parser rejects the text `"1 +"` with one
recorded syntax error and accepts everything else. -/
def badParseHost : Host :=
  { parseText := fun t =>
      if t = "1 +" then
        { syntaxValid := false
          errors := [⟨"parse error near +", 0, 2⟩]
          comments := [] }
      else
        { syntaxValid := true, errors := [], comments := [] }
    bindTree := fun _ =>
      { valid := true, errors := [], vars := [], funcs := [], threadUnsafeCalls := [] } }

/-- The thread-unsafe-call list after a sequence of `setThreadUnsafe`
calls: every name is appended, in call order. -/
theorem Expression.foldl_setThreadUnsafe (names : List String) (s : Expression) :
    (names.foldl (fun st m => Expression.setThreadUnsafe m st)
        s)._threadUnsafeFunctionCalls
      = s._threadUnsafeFunctionCalls ++ names := by
  induction names generalizing s with
  | nil => simp
  | cons a l ih =>
    rw [List.foldl_cons, ih]
    simp [Expression.setThreadUnsafe]

/-- Repeated `isValid()` calls: each call returns the answer and the
state after staging. -/
def Expression.isValidCalls (H : Host) : Nat → Expression → List Bool × Expression
  | 0, s => ([], s)
  | n + 1, s =>
    let r := Expression.isValid H s
    let rest := Expression.isValidCalls H n r.2
    (r.1 :: rest.1, rest.2)

theorem Expression.isValidCalls_of_prepped (H : Host) (n : Nat) (s : Expression)
    (h : s._prepped = true) :
    Expression.isValidCalls H n s = (List.replicate n s._isValid, s) := by
  induction n with
  | zero => simp [Expression.isValidCalls]
  | succ k ih =>
    simp [Expression.isValidCalls, Expression.isValid,
      Expression.prepIfNeeded_of_prepped H s h, ih, List.replicate_succ]

/-- C1: `isThreadSafe()` is true iff the thread-unsafe-calls list is
empty; `setThreadUnsafe(name)` appends exactly one entry (duplicates
permitted, call order preserved); starting from an empty list, after
the calls in `names` the list equals `names`, has length
`names.length`, and `isThreadSafe()` is false whenever the number of
calls is positive. -/
theorem C1_thread_unsafe_call_tracking (u : Expression) (n : String)
    (names : List String) (s : Expression)
    (h : s._threadUnsafeFunctionCalls = []) :
    ((Expression.isThreadSafe u).1 = true ↔ u._threadUnsafeFunctionCalls = []) ∧
    (Expression.setThreadUnsafe n u)._threadUnsafeFunctionCalls
      = u._threadUnsafeFunctionCalls ++ [n] ∧
    (Expression.getThreadUnsafeFunctionCalls
        (names.foldl (fun st m => Expression.setThreadUnsafe m st) s)).1 = names ∧
    (Expression.getThreadUnsafeFunctionCalls
        (names.foldl (fun st m => Expression.setThreadUnsafe m st) s)).1.length
      = names.length ∧
    (0 < names.length →
      (Expression.isThreadSafe
          (names.foldl (fun st m => Expression.setThreadUnsafe m st) s)).1
        = false) := by
  refine ⟨?_, rfl, ?_, ?_, ?_⟩
  · simp [Expression.isThreadSafe, List.length_eq_zero]
  · simp [Expression.getThreadUnsafeFunctionCalls,
      Expression.foldl_setThreadUnsafe, h]
  · simp [Expression.getThreadUnsafeFunctionCalls,
      Expression.foldl_setThreadUnsafe, h]
  · intro hpos
    have hne : names ≠ [] := List.ne_nil_of_length_pos hpos
    simp [Expression.isThreadSafe, Expression.foldl_setThreadUnsafe, h,
      List.length_eq_zero, hne]

/-- Witness for C1 at a concrete duplicate-bearing input. -/
theorem C1_thread_unsafe_call_tracking_witness :
    Expression.mk0._threadUnsafeFunctionCalls = [] ∧
    ((Expression.isThreadSafe Expression.mk0).1 = true ↔
        Expression.mk0._threadUnsafeFunctionCalls = []) ∧
    (Expression.setThreadUnsafe "rand" Expression.mk0)._threadUnsafeFunctionCalls
      = Expression.mk0._threadUnsafeFunctionCalls ++ ["rand"] ∧
    (Expression.getThreadUnsafeFunctionCalls
        (["noise", "noise"].foldl (fun st m => Expression.setThreadUnsafe m st)
          Expression.mk0)).1 = ["noise", "noise"] ∧
    (Expression.getThreadUnsafeFunctionCalls
        (["noise", "noise"].foldl (fun st m => Expression.setThreadUnsafe m st)
          Expression.mk0)).1.length = (["noise", "noise"] : List String).length ∧
    (0 < (["noise", "noise"] : List String).length →
      (Expression.isThreadSafe
          (["noise", "noise"].foldl (fun st m => Expression.setThreadUnsafe m st)
            Expression.mk0)).1 = false) :=
  ⟨rfl, C1_thread_unsafe_call_tracking Expression.mk0 "rand" ["noise", "noise"]
    Expression.mk0 rfl⟩

/-- C2 (counterexample): the claim that every public query — the
cached-list accessors included — lazily triggers the staging it needs
is false: on the freshly-set text `"1 +"`, whose parse records an
error, `getErrors()` answers the empty pre-staging list while the
post-staging error list is nonempty. -/
theorem C2_queries_stale_counterexample : ¬ Expression.queriesNeverStale := by
  intro h
  have h1 := (h badParseHost "1 +" Expression.mk0).1
  exact absurd h1 (by decide)

/-- C2 (amended): `isValid()` lazily triggers prepare, and
`syntaxOK()`, `usesVar()`, `usesFunc()` lazily trigger parse, before
answering; but `getErrors()`, `getComments()`, `isThreadSafe()` and
`getThreadUnsafeFunctionCalls()` are plain accessors that return the
cached state unchanged, triggering no staging, so on a freshly-set
expression they answer the cleared (empty) lists until another query
stages the expression. -/
theorem C2_lazy_staging_amended (H : Host) (name t : String) (s : Expression) :
    (Expression.isValid H s).2._prepped = true ∧
    (Expression.syntaxOK H s).2._parsed = true ∧
    (Expression.usesVar H name s).2._parsed = true ∧
    (Expression.usesFunc H name s).2._parsed = true ∧
    Expression.getErrors s = (s._errors, s) ∧
    Expression.getComments s = (s._comments, s) ∧
    Expression.isThreadSafe s = (s._threadUnsafeFunctionCalls.length == 0, s) ∧
    Expression.getThreadUnsafeFunctionCalls s
      = (s._threadUnsafeFunctionCalls, s) ∧
    (Expression.getErrors (Expression.setExpr t s)).1 = [] ∧
    (Expression.getComments (Expression.setExpr t s)).1 = [] ∧
    (Expression.getThreadUnsafeFunctionCalls (Expression.setExpr t s)).1 = [] := by
  refine ⟨Expression.prepIfNeeded_prepped H s, ?_, ?_, ?_,
    rfl, rfl, rfl, rfl, rfl, rfl, rfl⟩ <;>
    simp [Expression.syntaxOK, Expression.usesVar, Expression.usesFunc,
      Expression.parseIfNeeded_parsed]

/-- C3: `isValid()` is idempotent — any positive number of calls with
no intervening `setExpr` returns the same boolean each time, and the
state (the error list in particular) after the run equals the state
after the first call. -/
theorem C3_isValid_idempotent (H : Host) (s : Expression) (n : Nat) :
    (Expression.isValidCalls H (n + 1) s).1
      = List.replicate (n + 1) (Expression.isValid H s).1 ∧
    (Expression.isValidCalls H (n + 1) s).2 = (Expression.isValid H s).2 ∧
    (Expression.isValidCalls H (n + 1) s).2._errors
      = (Expression.isValid H s).2._errors := by
  have h2 : (Expression.isValid H s).2._prepped = true :=
    Expression.prepIfNeeded_prepped H s
  have hr : (Expression.isValid H s).2._isValid = (Expression.isValid H s).1 := rfl
  refine ⟨?_, ?_, ?_⟩ <;>
    simp [Expression.isValidCalls,
      Expression.isValidCalls_of_prepped H n _ h2, hr, List.replicate_succ]

/-- C4: `setExpr(text)` resets the expression to the unparsed state
regardless of the current state — the result does not depend on the
previous state at all, and every cached list (tree, errors, comments,
usage sets, thread-safety list) is discarded — so the error list
visible after any later staging depends only on the new text. -/
theorem C4_setExpr_unconditional_reset (t : String) (s s2 : Expression) (H : Host) :
    Expression.setExpr t s = Expression.setExpr t s2 ∧
    (Expression.setExpr t s)._parsed = false ∧
    (Expression.setExpr t s)._prepped = false ∧
    (Expression.setExpr t s)._parseTree = false ∧
    (Expression.setExpr t s)._errors = [] ∧
    (Expression.setExpr t s)._comments = [] ∧
    (Expression.setExpr t s)._vars = [] ∧
    (Expression.setExpr t s)._funcs = [] ∧
    (Expression.setExpr t s)._threadUnsafeFunctionCalls = [] ∧
    (Expression.getErrors (Expression.prepIfNeeded H (Expression.setExpr t s))).1
      = (Expression.getErrors
          (Expression.prepIfNeeded H (Expression.setExpr t s2))).1 :=
  ⟨rfl, rfl, rfl, rfl, rfl, rfl, rfl, rfl, rfl, rfl⟩

/-- C5: `addError(message, startPos, endPos)` appends exactly one
`Error` with exactly those values at the end of the error list, leaves
every existing entry unchanged, changes no other field, and
`getErrors()` reports the entries in insertion order. -/
theorem C5_addError_appends (msg : String) (a b : Int) (s : Expression) :
    (Expression.addError msg a b s)._errors = s._errors ++ [⟨msg, a, b⟩] ∧
    (Expression.addError msg a b s)._errors.length = s._errors.length + 1 ∧
    (Expression.addError msg a b s)._errors.take s._errors.length = s._errors ∧
    (Expression.getErrors (Expression.addError msg a b s)).1
      = (Expression.getErrors s).1 ++ [⟨msg, a, b⟩] ∧
    Expression.addError msg a b s
      = { s with _errors := s._errors ++ [⟨msg, a, b⟩] } := by
  refine ⟨rfl, by simp [Expression.addError], ?_, rfl, rfl⟩
  simp [Expression.addError, List.take_left]

/-- C6: unification is dominance-ordered — combining with Error on
either side yields Error (in particular `unify(Error, Numeric(3))`),
and two descriptors of one kind and one dimension keep the kind with
the dominant variability (in particular
`unify(Numeric(1, Constant), Numeric(1, Varying)) = Numeric(1,
Varying)`). -/
theorem C6_unify_dominance (t : TypeDescriptor) (n : Nat) (v w : Variability) :
    unify TypeDescriptor.error t = TypeDescriptor.error ∧
    unify t TypeDescriptor.error = TypeDescriptor.error ∧
    unify TypeDescriptor.error (TypeDescriptor.numeric 3) = TypeDescriptor.error ∧
    unify (TypeDescriptor.numeric 1 .Constant) (TypeDescriptor.numeric 1 .Varying)
      = TypeDescriptor.numeric 1 .Varying ∧
    unify (TypeDescriptor.numeric n v) (TypeDescriptor.numeric n w)
      = { kind := .Numeric n, variability := v.dominant w } ∧
    unify { kind := .String, variability := v } { kind := .String, variability := w }
      = { kind := .String, variability := v.dominant w } := by
  obtain ⟨k, vv⟩ := t
  refine ⟨?_, ?_, rfl, rfl, ?_, rfl⟩
  · cases k <;> rfl
  · cases k <;> rfl
  · simp [unify, TypeDescriptor.numeric]

/-- C7: the string-eval capability of the numeric-backed variable
references aborts — for every vector and scalar reference,
`eval(const char**)` reaches `assert(false)` and never writes a string
result. -/
theorem C7_string_eval_asserts (r : ExprVectorVarRef) (q : ExprScalarVarRef) :
    ExprVectorVarRef.evalStr r = StrEvalOutcome.assertFailed ∧
    (∀ out : String, ExprVectorVarRef.evalStr r ≠ StrEvalOutcome.written out) ∧
    ExprScalarVarRef.evalStr q = StrEvalOutcome.assertFailed ∧
    (∀ out : String, ExprScalarVarRef.evalStr q ≠ StrEvalOutcome.written out) := by
  refine ⟨rfl, ?_, rfl, ?_⟩ <;> intro out h <;> exact StrEvalOutcome.noConfusion h

/-- C8: `usesVar(name)` and `usesFunc(name)` trigger at most the parse
stage — the prepare flag is untouched — and answer membership of `name`
in the used-variables (respectively used-functions) set, which parsing
does not alter. -/
theorem C8_uses_queries_parse_only (H : Host) (name : String) (s : Expression) :
    (Expression.usesVar H name s).2._parsed = true ∧
    (Expression.usesVar H name s).2._prepped = s._prepped ∧
    (Expression.usesVar H name s).2._vars = s._vars ∧
    (Expression.usesVar H name s).1 = s._vars.contains name ∧
    (Expression.usesFunc H name s).2._parsed = true ∧
    (Expression.usesFunc H name s).2._prepped = s._prepped ∧
    (Expression.usesFunc H name s).2._funcs = s._funcs ∧
    (Expression.usesFunc H name s).1 = s._funcs.contains name := by
  refine ⟨?_, ?_, ?_, ?_, ?_, ?_, ?_, ?_⟩ <;>
    simp [Expression.usesVar, Expression.usesFunc,
      Expression.parseIfNeeded_parsed, Expression.parseIfNeeded_prepped,
      Expression.parseIfNeeded_vars, Expression.parseIfNeeded_funcs]

/-- C9: `addComment(pos, length)` appends exactly the pair
`(pos, pos + length - 1)` — an inclusive end offset — at the end of the
comment list, existing entries unchanged, and `getComments()` reports
the pairs in insertion order. -/
theorem C9_addComment_inclusive_end (pos len : Int) (s : Expression) :
    (Expression.addComment pos len s)._comments
      = s._comments ++ [(pos, pos + len - 1)] ∧
    (Expression.addComment pos len s)._comments.take s._comments.length
      = s._comments ∧
    (Expression.addComment pos len s)._comments.length
      = s._comments.length + 1 ∧
    (Expression.getComments (Expression.addComment pos len s)).1
      = (Expression.getComments s).1 ++ [(pos, pos + len - 1)] := by
  have hc : len + pos - 1 = pos + len - 1 := by omega
  refine ⟨?_, ?_, ?_, ?_⟩
  · simp [Expression.addComment, hc]
  · simp [Expression.addComment, List.take_left]
  · simp [Expression.addComment]
  · simp [Expression.getComments, Expression.addComment, hc]

/-- The copy loop writes component `i` for `i < count` and leaves the
rest of the buffer untouched. -/
theorem writeComponents_eval (ret : Vec3d) (count : Nat) (result : Nat → ℚ)
    (i : Nat) :
    writeComponents ret count result i
      = if i < count then Vec3d.get ret i else result i := by
  induction count with
  | zero => simp [writeComponents]
  | succ k ih =>
    simp only [writeComponents]
    by_cases hik : i = k
    · subst hik
      simp
    · rw [if_neg hik, ih]
      by_cases hlt : i < k
      · rw [if_pos hlt, if_pos (by omega)]
      · rw [if_neg hlt, if_neg (by omega)]

/-- C10: the default numeric-eval adapters write a fixed number of
doubles — `ExprVectorVarRef::eval(double*)` writes exactly components
0, 1, 2 of the node-eval result whatever the declared dimension (its
behaviour is identical to the dimension-3 instance), touching no buffer
cell at index 3 or beyond, while `ExprScalarVarRef::eval(double*)`
writes exactly component 0 and discards the others. -/
theorem C10_fixed_write_counts (d : Nat) (v : Vec3d) (result : Nat → ℚ)
    (j : Nat) (q : ExprScalarVarRef) :
    ExprVectorVarRef.evalFP { dim := d, evalNode := v } result 0 = v.comp0 ∧
    ExprVectorVarRef.evalFP { dim := d, evalNode := v } result 1 = v.comp1 ∧
    ExprVectorVarRef.evalFP { dim := d, evalNode := v } result 2 = v.comp2 ∧
    ExprVectorVarRef.evalFP { dim := d, evalNode := v } result (3 + j)
      = result (3 + j) ∧
    ExprVectorVarRef.evalFP { dim := d, evalNode := v } result
      = ExprVectorVarRef.evalFP { dim := 3, evalNode := v } result ∧
    ExprScalarVarRef.evalFP q result 0 = q.evalNode.comp0 ∧
    ExprScalarVarRef.evalFP q result (1 + j) = result (1 + j) := by
  refine ⟨?_, ?_, ?_, ?_, rfl, ?_, ?_⟩ <;>
    simp [ExprVectorVarRef.evalFP, ExprScalarVarRef.evalFP,
      writeComponents_eval, Vec3d.get]

end SeExpr2
